import Mathlib

/-!
Shallow embedding of the provider-dispatch request/response adapter of
`src/app/api/analyze/route.ts` (repository neox1de/bloodq), together with
the type declarations of `src/unnamed/part_000` (the shared `types` module).

JavaScript-specific behaviour is embedded explicitly:
* `String.split` with a one-character separator is `jsSplit` below;
  `xs[i]` on the resulting array is `List.get?` (JS yields `undefined`,
  embedded as `none`, when the index is out of range).
* truthiness of an optional string (`!x`, `x ? _ : _`, `x || y`) is
  `truthy` / `jsOrStr`: both `undefined` and the empty string are falsy.
* `JSON.stringify` drops object entries whose value is `undefined`;
  `optStrField` mirrors that when a body is built from optional strings.
* a thrown `Error` caught by the surrounding `try`/`catch` is the
  `Except.error` branch carrying the message string.
* property access `x.f` / `x[0]` on `undefined` or `null` throws a
  `TypeError`; on any other non-object it yields `undefined`.
  `jsGetField` / `jsGetIdx` embed this.
-/

/-- JSON values, used for request bodies and provider replies.  Numbers are
rationals so that the literal `0.1` of the source is exact. -/
inductive Json where
  | null : Json
  | str : String → Json
  | num : ℚ → Json
  | bool : Bool → Json
  | arr : List Json → Json
  | obj : List (String × Json) → Json
deriving Repr

/-- JS `String.split` restricted to the one-character separators the source
uses (`,`, `;`, `:`), on the underlying character list. -/
def splitChar (sep : Char) : List Char → List (List Char)
  | [] => [[]]
  | c :: rest =>
    let r := splitChar sep rest
    if c = sep then [] :: r
    else
      match r with
      | [] => [[c]]
      | h :: t => (c :: h) :: t

/-- JS `s.split(sep)` for a one-character separator. -/
def jsSplit (s : String) (sep : Char) : List String :=
  (splitChar sep s.data).map String.mk

/-- JS truthiness of an optional string: `undefined` and `""` are falsy. -/
def truthy : Option String → Bool
  | none => false
  | some s => s ≠ ""

/-- JS `a || b` on optional strings. -/
def jsOrStr (a b : Option String) : Option String :=
  if truthy a then a else b

/-- Embedding of the fact that `JSON.stringify` drops keys whose value is
`undefined`: an optional
string field contributes either one entry or nothing. -/
def optStrField (k : String) : Option String → List (String × Json)
  | none => []
  | some s => [(k, Json.str s)]

/-- The `AnalysisRequest` interface of the shared `types` module:
`imageBase64?`,
`contextText?`, `provider`.  The provider arrives from an untyped JSON
parse, so it is an arbitrary string at runtime. -/
structure AnalysisRequest where
  imageBase64 : Option String
  contextText : Option String
  provider : String
deriving Repr

/-- The `{ url, options }` value returned by the three `prepare*Request`
functions: everything `fetch` receives.  `body` is the object passed to
`JSON.stringify`. -/
structure FetchConfig where
  url : String
  method : String
  headers : List (String × String)
  body : Json
deriving Repr

/-- The `ANALYSIS_PROMPT` template literal, byte for byte (note the leading
newline, the trailing newline and the trailing blank after the first
sentence). -/
def ANALYSIS_PROMPT : String :=
  "\nYou are a medical expert analyzing a blood test result. \nExamine the image of the blood test results and provide a detailed analysis including:\n\n1. A summary of the test results\n2. Identification of any abnormal values and their significance\n3. Potential health implications based on these results\n4. General recommendations (NOT medical advice)\n\nPresent this information in a clear, organized format.\n"

/-- The shared prompt construction
`contextText ? ANALYSIS_PROMPT + suffix : ANALYSIS_PROMPT` appearing in all
three `prepare*Request` functions. -/
def buildPrompt (contextText : Option String) : String :=
  match contextText with
  | some c =>
      if c = "" then ANALYSIS_PROMPT
      else ANALYSIS_PROMPT ++ "\n\nAdditional context provided by user: " ++ c
  | none => ANALYSIS_PROMPT

/-- Embedding of `getApiEndpoint`: fixed provider → base URL mapping; the `default`
branch throws `Unsupported provider: {provider}`. -/
def getApiEndpoint (provider : String) : Except String String :=
  if provider = "gemini" then
    Except.ok "https://generativelanguage.googleapis.com/v1beta/models/gemini-1.5-flash:generateContent"
  else if provider = "openai" then
    Except.ok "https://api.openai.com/v1/chat/completions"
  else if provider = "claude" then
    Except.ok "https://api.anthropic.com/v1/messages"
  else
    Except.error ("Unsupported provider: " ++ provider)

/-- The constant URL that `getApiEndpoint` yields for the Gemini provider,
as used inline by
`prepareGeminiRequest`. -/
def geminiEndpoint : String :=
  "https://generativelanguage.googleapis.com/v1beta/models/gemini-1.5-flash:generateContent"

/-- Embedding of `prepareGeminiRequest`.  `apiKey || process.env.GOOGLE_GEMINI_API_KEY`
is `jsOrStr apiKey envGeminiKey`; a falsy result throws.  The base64 prefix
is stripped with `imageBase64.split(',')[1]` (possibly `undefined`). -/
def prepareGeminiRequest (imageBase64 : String) (contextText : Option String)
    (apiKey : Option String) (envGeminiKey : Option String) :
    Except String FetchConfig :=
  match jsOrStr apiKey envGeminiKey with
  | none => Except.error "No Gemini API key provided"
  | some key =>
    if key = "" then Except.error "No Gemini API key provided"
    else
    let base64Data := (jsSplit imageBase64 ',').get? 1
    let prompt := buildPrompt contextText
    Except.ok
      { url := geminiEndpoint ++ "?key=" ++ key
        method := "POST"
        headers := [("Content-Type", "application/json")]
        body := Json.obj
          [ ("contents", Json.arr
              [ Json.obj
                  [ ("parts", Json.arr
                      [ Json.obj [("text", Json.str prompt)],
                        Json.obj
                          [ ("inline_data", Json.obj
                              ([("mime_type", Json.str "image/jpeg")] ++
                               optStrField "data" base64Data)) ] ]) ] ]),
            ("generationConfig", Json.obj
              [ ("temperature", Json.num (1/10)),
                ("maxOutputTokens", Json.num 2048) ]) ] }

/-- Embedding of `prepareOpenAIRequest`: throws on a falsy `apiKey`; the full data URI is
forwarded untouched inside `image_url`. -/
def prepareOpenAIRequest (imageBase64 : String) (contextText : Option String)
    (apiKey : Option String) : Except String FetchConfig :=
  match apiKey with
  | none => Except.error "No OpenAI API key provided"
  | some key =>
    if key = "" then Except.error "No OpenAI API key provided"
    else
      let prompt := buildPrompt contextText
      Except.ok
        { url := "https://api.openai.com/v1/chat/completions"
          method := "POST"
          headers :=
            [ ("Content-Type", "application/json"),
              ("Authorization", "Bearer " ++ key) ]
          body := Json.obj
            [ ("model", Json.str "gpt-4-vision-preview"),
              ("messages", Json.arr
                [ Json.obj
                    [ ("role", Json.str "user"),
                      ("content", Json.arr
                        [ Json.obj
                            [ ("type", Json.str "text"),
                              ("text", Json.str prompt) ],
                          Json.obj
                            [ ("type", Json.str "image_url"),
                              ("image_url", Json.obj
                                [("url", Json.str imageBase64)]) ] ]) ] ]),
              ("max_tokens", Json.num 2048),
              ("temperature", Json.num (1/10)) ] }

/-- Embedding of `prepareClaudeRequest`: throws on a falsy `apiKey`; strips the base64
prefix with `split(',')[1]` and parses the media type with
`split(';')[0].split(':')[1]` (either may be `undefined`). -/
def prepareClaudeRequest (imageBase64 : String) (contextText : Option String)
    (apiKey : Option String) : Except String FetchConfig :=
  match apiKey with
  | none => Except.error "No Claude API key provided"
  | some key =>
    if key = "" then Except.error "No Claude API key provided"
    else
      let base64Data := (jsSplit imageBase64 ',').get? 1
      let mimeType := (jsSplit ((jsSplit imageBase64 ';').getD 0 "") ':').get? 1
      let prompt := buildPrompt contextText
      Except.ok
        { url := "https://api.anthropic.com/v1/messages"
          method := "POST"
          headers :=
            [ ("Content-Type", "application/json"),
              ("x-api-key", key),
              ("anthropic-version", "2023-06-01") ]
          body := Json.obj
            [ ("model", Json.str "claude-3-opus-20240229"),
              ("max_tokens", Json.num 2048),
              ("temperature", Json.num (1/10)),
              ("messages", Json.arr
                [ Json.obj
                    [ ("role", Json.str "user"),
                      ("content", Json.arr
                        [ Json.obj
                            [ ("type", Json.str "text"),
                              ("text", Json.str prompt) ],
                          Json.obj
                            [ ("type", Json.str "image"),
                              ("source", Json.obj
                                ([("type", Json.str "base64")] ++
                                 optStrField "media_type" mimeType ++
                                 optStrField "data" base64Data)) ] ]) ] ]) ] }

/-- The message of the `TypeError` thrown by a property access on
`undefined` (the exact runtime wording is environment-specific; only the
fact that it is a thrown-and-caught error matters downstream). -/
def typeErr (k : String) : String :=
  "TypeError: Cannot read properties of undefined (reading " ++ k ++ ")"

/-- JS property access `x.k`: throws on `undefined`/`null`, looks the key
up on an object, and yields `undefined` on any other non-object value. -/
def jsGetField : Option Json → String → Except String (Option Json)
  | none, k => Except.error (typeErr k)
  | some Json.null, k => Except.error (typeErr k)
  | some (Json.obj fs), k => Except.ok ((fs.find? (fun p => p.1 = k)).map Prod.snd)
  | some _, _ => Except.ok none

/-- JS index access `x[i]`: throws on `undefined`/`null`, indexes an array,
indexes a string (JS yields the one-character string at that position,
`undefined` out of range), looks up the numeric key on an object,
`undefined` otherwise. -/
def jsGetIdx : Option Json → Nat → Except String (Option Json)
  | none, i => Except.error (typeErr (toString i))
  | some Json.null, i => Except.error (typeErr (toString i))
  | some (Json.arr xs), i => Except.ok (xs.get? i)
  | some (Json.str s), i =>
      Except.ok ((s.data.get? i).map (fun ch => Json.str (String.mk [ch])))
  | some (Json.obj fs), i =>
      Except.ok ((fs.find? (fun p => p.1 = toString i)).map Prod.snd)
  | some _, _ => Except.ok none

/-- Gemini decode path: `data.candidates[0].content.parts[0].text`. -/
def decodeGemini (data : Json) : Except String (Option Json) := do
  let a ← jsGetField (some data) "candidates"
  let b ← jsGetIdx a 0
  let c ← jsGetField b "content"
  let d ← jsGetField c "parts"
  let e ← jsGetIdx d 0
  jsGetField e "text"

/-- OpenAI decode path: `data.choices[0].message.content`. -/
def decodeOpenAI (data : Json) : Except String (Option Json) := do
  let a ← jsGetField (some data) "choices"
  let b ← jsGetIdx a 0
  let c ← jsGetField b "message"
  jsGetField c "content"

/-- Claude decode path: `data.content[0].text`. -/
def decodeClaude (data : Json) : Except String (Option Json) := do
  let a ← jsGetField (some data) "content"
  let b ← jsGetIdx a 0
  jsGetField b "text"

/-- The first `switch (provider)` of `analyzeBloodTest`: dispatch to the
matching `prepare*Request`, `default` throws `Unsupported provider`. -/
def selectBranch (provider : String) (imageBase64 : String)
    (contextText : Option String) (userApiKey : Option String)
    (envGeminiKey : Option String) : Except String FetchConfig :=
  if provider = "gemini" then
    prepareGeminiRequest imageBase64 contextText userApiKey envGeminiKey
  else if provider = "openai" then
    prepareOpenAIRequest imageBase64 contextText userApiKey
  else if provider = "claude" then
    prepareClaudeRequest imageBase64 contextText userApiKey
  else
    Except.error ("Unsupported provider: " ++ provider)

/-- The second `switch (provider)` of `analyzeBloodTest`: provider-specific
reply decoding.  The switch has no `default`: an unmatched provider leaves
`resultText` at its initialiser, the empty string (unreachable, since the first switch
already threw). -/
def decodeFor (provider : String) (data : Json) : Except String (Option Json) :=
  if provider = "gemini" then decodeGemini data
  else if provider = "openai" then decodeOpenAI data
  else if provider = "claude" then decodeClaude data
  else Except.ok (some (Json.str ""))

/-- What `fetch` resolved to: `ok`/`status`, the `.text()` body and the
`.json()` parse of the body. -/
structure HttpResponse where
  ok : Bool
  status : Nat
  bodyText : String
  json : Json
deriving Repr

/-- Outcome of `analyzeBloodTest`: the tagged
`{ success: true, result: { text, provider, timestamp } }` /
`{ success: false, error }` union.  `text` is `Option Json` because the
final property access of a decode path may yield `undefined`. -/
inductive AnalyzeOutcome where
  | success : Option Json → String → Int → AnalyzeOutcome
  | failure : String → AnalyzeOutcome
deriving Repr

/-- Whether an outcome is the `success: false` branch. -/
def AnalyzeOutcome.isFailure : AnalyzeOutcome → Bool
  | AnalyzeOutcome.failure _ => true
  | AnalyzeOutcome.success _ _ _ => false

/-- Embedding of `analyzeBloodTest`.  The single possible network exchange is abstracted
by `net` (what `fetch` would resolve to) and `Date.now()` by `now`; the
second component of the result lists the `fetch` calls actually issued,
each with its full configuration. -/
def analyzeBloodTest (req : AnalysisRequest) (userApiKey : Option String)
    (envGeminiKey : Option String) (net : HttpResponse) (now : Int) :
    AnalyzeOutcome × List FetchConfig :=
  if truthy req.imageBase64 = false then
    (AnalyzeOutcome.failure "No image provided", [])
  else
    match selectBranch req.provider (req.imageBase64.getD "") req.contextText
        userApiKey envGeminiKey with
    | Except.error e => (AnalyzeOutcome.failure e, [])
    | Except.ok cfg =>
      if net.ok = false then
        (AnalyzeOutcome.failure
          ("API Error (" ++ toString net.status ++ "): " ++ net.bodyText),
         [cfg])
      else
        match decodeFor req.provider net.json with
        | Except.error e => (AnalyzeOutcome.failure e, [cfg])
        | Except.ok t => (AnalyzeOutcome.success t req.provider now, [cfg])

/-- The inbound HTTP request of the `POST` route handler: the parsed JSON
body plus the three per-provider key headers (absent header = `none`). -/
structure IncomingPost where
  body : AnalysisRequest
  xGeminiKey : Option String
  xOpenaiKey : Option String
  xClaudeKey : Option String
deriving Repr

/-- The reply the route handler produces. -/
structure HttpReply where
  status : Nat
  json : Json
deriving Repr

/-- Embedding of the `POST` route handler: picks the per-provider key header,
coerces a falsy header to
`undefined` (`userApiKey || undefined`), runs `analyzeBloodTest`, and maps
a failure to status 400 with `{ error }`, a success to status 200 with the
serialized result. -/
def POSTHandler (inc : IncomingPost) (envGeminiKey : Option String)
    (net : HttpResponse) (now : Int) : HttpReply × List FetchConfig :=
  let rawKey :=
    if inc.body.provider = "gemini" then inc.xGeminiKey
    else if inc.body.provider = "openai" then inc.xOpenaiKey
    else inc.xClaudeKey
  let userApiKey := if truthy rawKey then rawKey else none
  match analyzeBloodTest inc.body userApiKey envGeminiKey net now with
  | (AnalyzeOutcome.failure e, calls) =>
      ({ status := 400, json := Json.obj [("error", Json.str e)] }, calls)
  | (AnalyzeOutcome.success t p ts, calls) =>
      ({ status := 200
         json := Json.obj
           [ ("success", Json.bool true),
             ("result", Json.obj
               ((match t with
                 | none => []
                 | some v => [("text", v)]) ++
                [ ("provider", Json.str p),
                  ("timestamp", Json.num (ts : ℚ)) ])) ] }, calls)

/-! ### Observers used to state properties about built requests

These are not part of the source; they read fields back out of a built
request body (with the same JS access semantics as the decoders) so that
properties about single fields can be stated without copying whole
request records. -/

/-- The prompt text a built request carries: `contents[0].parts[0].text`
for the Gemini shape, `messages[0].content[0].text` for the OpenAI and
Claude shapes. -/
def sentPrompt (provider : String) (cfg : FetchConfig) :
    Except String (Option Json) :=
  if provider = "gemini" then do
    let a ← jsGetField (some cfg.body) "contents"
    let b ← jsGetIdx a 0
    let c ← jsGetField b "parts"
    let d ← jsGetIdx c 0
    jsGetField d "text"
  else do
    let a ← jsGetField (some cfg.body) "messages"
    let b ← jsGetIdx a 0
    let c ← jsGetField b "content"
    let d ← jsGetIdx c 0
    jsGetField d "text"

/-- The `inline_data` object of a Gemini-shaped body:
`contents[0].parts[1].inline_data`. -/
def inlineDataOf (cfg : FetchConfig) : Except String (Option Json) := do
  let a ← jsGetField (some cfg.body) "contents"
  let b ← jsGetIdx a 0
  let c ← jsGetField b "parts"
  let d ← jsGetIdx c 1
  jsGetField d "inline_data"

/-- The image `source` object of a Claude-shaped body:
`messages[0].content[1].source`. -/
def imageSourceOf (cfg : FetchConfig) : Except String (Option Json) := do
  let a ← jsGetField (some cfg.body) "messages"
  let b ← jsGetIdx a 0
  let c ← jsGetField b "content"
  let d ← jsGetIdx c 1
  jsGetField d "source"

/-! ### Helper lemmas about the embedded JS `split` -/

theorem splitChar_ne_nil (sep : Char) (l : List Char) : splitChar sep l ≠ [] := by
  induction l with
  | nil => simp [splitChar]
  | cons c rest ih =>
    simp only [splitChar]
    by_cases h : c = sep
    · simp [h]
    · simp only [h, if_false]
      cases hr : splitChar sep rest with
      | nil => simp
      | cons a t => simp

theorem splitChar_of_not_mem (sep : Char) (l : List Char) (h : sep ∉ l) :
    splitChar sep l = [l] := by
  induction l with
  | nil => simp [splitChar]
  | cons c rest ih =>
    simp only [List.mem_cons, not_or] at h
    have hc : ¬ c = sep := fun hcc => h.1 hcc.symm
    simp only [splitChar, ih h.2, hc, if_false]

theorem splitChar_append (sep : Char) (a b : List Char) (h : sep ∉ a) :
    splitChar sep (a ++ sep :: b) = a :: splitChar sep b := by
  induction a with
  | nil => simp [splitChar]
  | cons c rest ih =>
    simp only [List.mem_cons, not_or] at h
    have hc : ¬ c = sep := fun hcc => h.1 hcc.symm
    have ih2 : splitChar sep (rest.append (sep :: b)) = rest :: splitChar sep b := ih h.2
    simp only [List.cons_append, splitChar, ih2, hc, if_false]

theorem splitChar_head_subset (sep : Char) (l : List Char) :
    ∀ c ∈ (splitChar sep l).headD [], c ∈ l := by
  induction l with
  | nil => intro c hc; simp [splitChar] at hc
  | cons a rest ih =>
    intro c hc
    simp only [splitChar] at hc
    by_cases h : a = sep
    · simp [h] at hc
    · simp only [h, if_false] at hc
      cases hr : splitChar sep rest with
      | nil => exact absurd hr (splitChar_ne_nil sep rest)
      | cons y t =>
        rw [hr] at hc
        simp only [List.headD_cons, List.mem_cons] at hc
        rcases hc with hc | hc
        · simp [hc]
        · have : c ∈ rest := ih c (by rw [hr]; exact hc)
          exact List.mem_cons_of_mem _ this

theorem String.mk_data (s : String) : String.mk s.data = s := rfl

/-- Splitting a data URI `data:{m};base64,{d}` at the comma isolates the
payload, provided neither `m` nor `d` contains a comma. -/
theorem jsSplit_dataURI_comma (m d : String)
    (hm : ',' ∉ m.data) (hd : ',' ∉ d.data) :
    jsSplit ("data:" ++ m ++ ";base64," ++ d) ',' =
      ["data:" ++ m ++ ";base64", d] := by
  have hdata : ("data:" ++ m ++ ";base64," ++ d).data =
      ("data:" ++ m ++ ";base64").data ++ ',' :: d.data := by
    simp only [String.data_append]
    have : (";base64," : String).data = ";base64".data ++ [','] := by decide
    simp [this, List.append_assoc]
  have hnm : ',' ∉ ("data:" ++ m ++ ";base64").data := by
    simp only [String.data_append, List.mem_append, not_or]
    exact ⟨⟨by decide, hm⟩, by decide⟩
  rw [jsSplit, hdata, splitChar_append _ _ _ hnm,
    splitChar_of_not_mem _ _ hd]
  simp only [List.map_cons, List.map_nil, String.mk_data]

/-- Splitting the same data URI at the semicolon starts with `data:{m}`,
provided `m` contains no semicolon. -/
theorem jsSplit_dataURI_semi (m d : String) (hm : ';' ∉ m.data) :
    (jsSplit ("data:" ++ m ++ ";base64," ++ d) ';').getD 0 "" =
      "data:" ++ m := by
  have hdata : ("data:" ++ m ++ ";base64," ++ d).data =
      ("data:" ++ m).data ++ ';' :: ("base64," ++ d).data := by
    simp only [String.data_append]
    have : (";base64," : String).data = ';' :: "base64,".data := by decide
    simp [this, List.append_assoc, String.data_append]
  have hnm : ';' ∉ ("data:" ++ m).data := by
    simp only [String.data_append, List.mem_append, not_or]
    exact ⟨by decide, hm⟩
  rw [jsSplit, hdata, splitChar_append _ _ _ hnm]
  simp only [List.map_cons, List.getD_cons_zero]

/-- Splitting `data:{m}` at the colon yields `["data", m]`, provided `m`
contains no colon. -/
theorem jsSplit_dataPrefix_colon (m : String) (hm : ':' ∉ m.data) :
    jsSplit ("data:" ++ m) ':' = ["data", m] := by
  have hdata : ("data:" ++ m).data = "data".data ++ ':' :: m.data := by
    have : ("data:" : String).data = "data".data ++ [':'] := by decide
    simp [String.data_append, this, List.append_assoc]
  rw [jsSplit, hdata, splitChar_append _ _ _ (by decide),
    splitChar_of_not_mem _ _ hm]
  simp [String.mk_data]

/-- A string without the separator survives the split whole, so index 1 is
out of range (`undefined` in JS). -/
theorem jsSplit_no_sep (s : String) (sep : Char) (h : sep ∉ s.data) :
    (jsSplit s sep).get? 1 = none := by
  rw [jsSplit, splitChar_of_not_mem _ _ h]
  rfl

/-- The first element of any one-character split draws its characters from
the original string. -/
theorem jsSplit_head_subset (s : String) (sep : Char) :
    ∀ c ∈ ((jsSplit s sep).getD 0 "").data, c ∈ s.data := by
  intro c hc
  rw [jsSplit] at hc
  cases hr : splitChar sep s.data with
  | nil => exact absurd hr (splitChar_ne_nil sep s.data)
  | cons y t =>
    rw [hr] at hc
    simp only [List.map_cons, List.getD_cons_zero] at hc
    have : c ∈ (splitChar sep s.data).headD [] := by
      rw [hr]; exact hc
    exact splitChar_head_subset sep s.data c this

theorem jsOrStr_of_ne (k : String) (env : Option String) (hk : k ≠ "") :
    jsOrStr (some k) env = some k := by
  simp [jsOrStr, truthy, hk]

theorem mime_of_dataURI (m d : String) (hm2 : ';' ∉ m.data) (hm3 : ':' ∉ m.data) :
    (jsSplit ((jsSplit ("data:" ++ m ++ ";base64," ++ d) ';').getD 0 "") ':').get? 1
      = some m := by
  rw [jsSplit_dataURI_semi m d hm2, jsSplit_dataPrefix_colon m hm3]
  rfl

/-- C1: for each provider, given a valid base64 data-URI image
`data:{m};base64,{d}`, no context and a resolvable credential, the adapter
builds exactly the fixed request: Gemini puts the key in the URL query and
sends `contents` with a text part and an `inline_data` part (prefix
stripped, `mime_type` hardcoded to `image/jpeg`) plus temperature 0.1 and
maxOutputTokens 2048; OpenAI puts the key in an `Authorization: Bearer`
header and one user message with a text part and an `image_url` part
carrying the full original data URI, max_tokens 2048, temperature 0.1;
Claude puts the key in `x-api-key` plus `anthropic-version: 2023-06-01`
and one user message with a text block and a base64 image block whose
`media_type` is parsed from the prefix and whose `data` has the prefix
stripped, max_tokens 2048. -/
theorem C1_fixed_request_schemas (m d k : String) (env : Option String)
    (hm1 : ',' ∉ m.data) (hm2 : ';' ∉ m.data) (hm3 : ':' ∉ m.data)
    (hd : ',' ∉ d.data) (hk : k ≠ "") :
    prepareGeminiRequest ("data:" ++ m ++ ";base64," ++ d) none (some k) env =
      Except.ok
        { url := geminiEndpoint ++ "?key=" ++ k
          method := "POST"
          headers := [("Content-Type", "application/json")]
          body := Json.obj
            [ ("contents", Json.arr
                [ Json.obj
                    [ ("parts", Json.arr
                        [ Json.obj [("text", Json.str ANALYSIS_PROMPT)],
                          Json.obj
                            [ ("inline_data", Json.obj
                                [ ("mime_type", Json.str "image/jpeg"),
                                  ("data", Json.str d) ]) ] ]) ] ]),
              ("generationConfig", Json.obj
                [ ("temperature", Json.num (1/10)),
                  ("maxOutputTokens", Json.num 2048) ]) ] } ∧
    prepareOpenAIRequest ("data:" ++ m ++ ";base64," ++ d) none (some k) =
      Except.ok
        { url := "https://api.openai.com/v1/chat/completions"
          method := "POST"
          headers :=
            [ ("Content-Type", "application/json"),
              ("Authorization", "Bearer " ++ k) ]
          body := Json.obj
            [ ("model", Json.str "gpt-4-vision-preview"),
              ("messages", Json.arr
                [ Json.obj
                    [ ("role", Json.str "user"),
                      ("content", Json.arr
                        [ Json.obj
                            [ ("type", Json.str "text"),
                              ("text", Json.str ANALYSIS_PROMPT) ],
                          Json.obj
                            [ ("type", Json.str "image_url"),
                              ("image_url", Json.obj
                                [("url", Json.str ("data:" ++ m ++ ";base64," ++ d))]) ] ]) ] ]),
              ("max_tokens", Json.num 2048),
              ("temperature", Json.num (1/10)) ] } ∧
    prepareClaudeRequest ("data:" ++ m ++ ";base64," ++ d) none (some k) =
      Except.ok
        { url := "https://api.anthropic.com/v1/messages"
          method := "POST"
          headers :=
            [ ("Content-Type", "application/json"),
              ("x-api-key", k),
              ("anthropic-version", "2023-06-01") ]
          body := Json.obj
            [ ("model", Json.str "claude-3-opus-20240229"),
              ("max_tokens", Json.num 2048),
              ("temperature", Json.num (1/10)),
              ("messages", Json.arr
                [ Json.obj
                    [ ("role", Json.str "user"),
                      ("content", Json.arr
                        [ Json.obj
                            [ ("type", Json.str "text"),
                              ("text", Json.str ANALYSIS_PROMPT) ],
                          Json.obj
                            [ ("type", Json.str "image"),
                              ("source", Json.obj
                                [ ("type", Json.str "base64"),
                                  ("media_type", Json.str m),
                                  ("data", Json.str d) ]) ] ]) ] ]) ] } := by
  refine ⟨?_, ?_, ?_⟩
  · simp only [prepareGeminiRequest, jsOrStr_of_ne k env hk, hk, if_false,
      jsSplit_dataURI_comma m d hm1 hd, buildPrompt, optStrField]
    rfl
  · simp only [prepareOpenAIRequest, hk, if_false, buildPrompt]
  · simp only [prepareClaudeRequest, hk, if_false,
      jsSplit_dataURI_comma m d hm1 hd, mime_of_dataURI m d hm2 hm3,
      buildPrompt, optStrField]
    rfl

/-- Witness for C1 at `m = image/jpeg`, `d = AAAA`, `k = k`. -/
theorem C1_fixed_request_schemas_witness :
    prepareGeminiRequest ("data:" ++ "image/jpeg" ++ ";base64," ++ "AAAA") none (some "k") none =
      Except.ok
        { url := geminiEndpoint ++ "?key=" ++ "k"
          method := "POST"
          headers := [("Content-Type", "application/json")]
          body := Json.obj
            [ ("contents", Json.arr
                [ Json.obj
                    [ ("parts", Json.arr
                        [ Json.obj [("text", Json.str ANALYSIS_PROMPT)],
                          Json.obj
                            [ ("inline_data", Json.obj
                                [ ("mime_type", Json.str "image/jpeg"),
                                  ("data", Json.str "AAAA") ]) ] ]) ] ]),
              ("generationConfig", Json.obj
                [ ("temperature", Json.num (1/10)),
                  ("maxOutputTokens", Json.num 2048) ]) ] } :=
  (C1_fixed_request_schemas "image/jpeg" "AAAA" "k" none (by decide) (by decide)
    (by decide) (by decide) (by decide)).1

set_option maxRecDepth 4096 in
/-- C2 counterexample: with context `x` the Gemini request carries the
prompt `ANALYSIS_PROMPT ++ "\n\nAdditional context provided by user: x"`,
which is NOT the fixed prompt with exactly the string
`Additional context provided by user: x` appended — a blank-line separator
is inserted as well. -/
theorem C2_prompt_counterexample :
    (prepareGeminiRequest "data:image/jpeg;base64,AAAA" (some "x") (some "k") none).map
        (sentPrompt "gemini") =
      Except.ok (Except.ok (some (Json.str
        (ANALYSIS_PROMPT ++ "\n\nAdditional context provided by user: " ++ "x")))) ∧
    ANALYSIS_PROMPT ++ "\n\nAdditional context provided by user: " ++ "x" ≠
      ANALYSIS_PROMPT ++ "Additional context provided by user: " ++ "x" := by
  exact ⟨rfl, by decide⟩

/-- C2 as amended: whenever a provider branch builds a request, the prompt
it carries is `buildPrompt ctx`; with a non-empty context that is the fixed
prompt followed by a blank line (`\n\n`) and then exactly the string
`Additional context provided by user: {context}`; with no context it is
the fixed prompt unchanged. -/
theorem C2_prompt_construction :
    (∀ p ∈ (["gemini", "openai", "claude"] : List String),
      ∀ img ctx key env,
        (selectBranch p img ctx key env).map (sentPrompt p) =
          (selectBranch p img ctx key env).map
            (fun _ => Except.ok (some (Json.str (buildPrompt ctx))))) ∧
    (∀ c, c ≠ "" → buildPrompt (some c) =
      ANALYSIS_PROMPT ++ "\n\nAdditional context provided by user: " ++ c) ∧
    buildPrompt none = ANALYSIS_PROMPT := by
  refine ⟨?_, ?_, rfl⟩
  · intro p hp img ctx key env
    simp only [List.mem_cons, List.mem_singleton] at hp
    rcases hp with rfl | rfl | hp
    · cases hjk : jsOrStr key env with
      | none => simp [selectBranch, prepareGeminiRequest, hjk, Except.map]
      | some k =>
        by_cases hk : k = ""
        · simp [selectBranch, prepareGeminiRequest, hjk, hk, Except.map]
        · simp only [selectBranch, prepareGeminiRequest, hjk, hk, if_false,
            reduceIte]
          rfl
    · cases key with
      | none => simp [selectBranch, prepareOpenAIRequest, Except.map]
      | some k =>
        by_cases hk : k = ""
        · simp [selectBranch, prepareOpenAIRequest, hk, Except.map]
        · simp only [selectBranch, prepareOpenAIRequest, hk, if_false,
            reduceIte]
          rfl
    · rcases hp with rfl | hp
      · cases key with
        | none => simp [selectBranch, prepareClaudeRequest, Except.map]
        | some k =>
          by_cases hk : k = ""
          · simp [selectBranch, prepareClaudeRequest, hk, Except.map]
          · simp only [selectBranch, prepareClaudeRequest, hk, if_false,
              reduceIte]
            rfl
      · exact absurd hp (List.not_mem_nil p)
  · intro c hc
    simp [buildPrompt, hc]

/-- Witness for C2 as amended: Gemini branch with context `x`. -/
theorem C2_prompt_construction_witness :
    (selectBranch "gemini" "data:image/jpeg;base64,AAAA" (some "x") (some "k") none).map
        (sentPrompt "gemini") =
      (selectBranch "gemini" "data:image/jpeg;base64,AAAA" (some "x") (some "k") none).map
        (fun _ => Except.ok (some (Json.str (buildPrompt (some "x"))))) ∧
    buildPrompt (some "x") =
      ANALYSIS_PROMPT ++ "\n\nAdditional context provided by user: " ++ "x" :=
  ⟨C2_prompt_construction.1 "gemini" (by decide) "data:image/jpeg;base64,AAAA"
      (some "x") (some "k") none,
   C2_prompt_construction.2.1 "x" (by decide)⟩

/-- C3: building the Gemini request from `data:image/jpeg;base64,AAAA`
yields an `inline_data` part with `mime_type image/jpeg` and `data AAAA`
(prefix stripped); and for any well-formed data URI `data:{m};base64,{d}`
(no separator characters inside `m`, no comma inside `d`) the
prefix-stripping recovers the payload and the Claude media-type parse
(text between `:` and `;`) recovers the MIME type. -/
theorem C3_dataURI_roundtrip (m d : String)
    (hm1 : ',' ∉ m.data) (hm2 : ';' ∉ m.data) (hm3 : ':' ∉ m.data)
    (hd : ',' ∉ d.data) :
    (prepareGeminiRequest "data:image/jpeg;base64,AAAA" none (some "k") none).map
        inlineDataOf =
      Except.ok (Except.ok (some (Json.obj
        [("mime_type", Json.str "image/jpeg"), ("data", Json.str "AAAA")]))) ∧
    (jsSplit ("data:" ++ m ++ ";base64," ++ d) ',').get? 1 = some d ∧
    (jsSplit ((jsSplit ("data:" ++ m ++ ";base64," ++ d) ';').getD 0 "") ':').get? 1
      = some m := by
  refine ⟨rfl, ?_, mime_of_dataURI m d hm2 hm3⟩
  rw [jsSplit_dataURI_comma m d hm1 hd]
  rfl

/-- Witness for C3 at `m = image/png`, `d = QUJD`. -/
theorem C3_dataURI_roundtrip_witness :
    (jsSplit ("data:" ++ "image/png" ++ ";base64," ++ "QUJD") ',').get? 1 = some "QUJD" ∧
    (jsSplit ((jsSplit ("data:" ++ "image/png" ++ ";base64," ++ "QUJD") ';').getD 0 "") ':').get? 1
      = some "image/png" :=
  ⟨(C3_dataURI_roundtrip "image/png" "QUJD" (by decide) (by decide) (by decide)
      (by decide)).2.1,
   (C3_dataURI_roundtrip "image/png" "QUJD" (by decide) (by decide) (by decide)
      (by decide)).2.2⟩

/-- C4: a request whose image payload is absent or empty fails validation
with `No image provided` and issues zero network calls; no request is
built. -/
theorem C4_missing_image_validation (req : AnalysisRequest)
    (key env : Option String) (net : HttpResponse) (now : Int)
    (h : req.imageBase64 = none ∨ req.imageBase64 = some "") :
    analyzeBloodTest req key env net now =
      (AnalyzeOutcome.failure "No image provided", []) := by
  rcases h with h | h <;> simp [analyzeBloodTest, truthy, h]

/-- Witness for C4 at an absent image. -/
theorem C4_missing_image_validation_witness :
    analyzeBloodTest ⟨none, none, "gemini"⟩ none none ⟨true, 200, "", Json.null⟩ 0 =
      (AnalyzeOutcome.failure "No image provided", []) :=
  C4_missing_image_validation ⟨none, none, "gemini"⟩ none none
    ⟨true, 200, "", Json.null⟩ 0 (Or.inl rfl)

/-- C5: credential resolution is asymmetric and pre-network: a falsy caller
key for Gemini falls back to the `GOOGLE_GEMINI_API_KEY` default (the key
query parameter then carries the default); with both absent the Gemini
build fails with `No Gemini API key provided`; for OpenAI and Claude any
falsy caller key fails immediately with the respective missing-credential
error and no fallback exists; and whenever the branch selection fails, the
adapter issues zero network calls. -/
theorem C5_credential_resolution :
    (∀ img ctx key e, truthy key = false → e ≠ "" →
      (prepareGeminiRequest img ctx key (some e)).map FetchConfig.url =
        Except.ok (geminiEndpoint ++ "?key=" ++ e)) ∧
    (∀ img ctx key env, truthy key = false → truthy env = false →
      prepareGeminiRequest img ctx key env =
        Except.error "No Gemini API key provided") ∧
    (∀ img ctx key, truthy key = false →
      prepareOpenAIRequest img ctx key =
        Except.error "No OpenAI API key provided") ∧
    (∀ img ctx key, truthy key = false →
      prepareClaudeRequest img ctx key =
        Except.error "No Claude API key provided") ∧
    (∀ req key env net now e,
      selectBranch req.provider (req.imageBase64.getD "") req.contextText key env
        = Except.error e →
      (analyzeBloodTest req key env net now).2 = []) := by
  refine ⟨?_, ?_, ?_, ?_, ?_⟩
  · intro img ctx key e hkey he
    have hjk : jsOrStr key (some e) = some e := by simp [jsOrStr, hkey]
    simp [prepareGeminiRequest, hjk, he, Except.map]
  · intro img ctx key env hkey henv
    have hjk : jsOrStr key env = env := by simp [jsOrStr, hkey]
    rw [prepareGeminiRequest.eq_def, hjk]
    cases env with
    | none => rfl
    | some e =>
      have : e = "" := by
        by_contra he
        simp [truthy, he] at henv
      simp [this]
  · intro img ctx key hkey
    cases key with
    | none => rfl
    | some k =>
      have : k = "" := by
        by_contra hk
        simp [truthy, hk] at hkey
      simp [prepareOpenAIRequest, this]
  · intro img ctx key hkey
    cases key with
    | none => rfl
    | some k =>
      have : k = "" := by
        by_contra hk
        simp [truthy, hk] at hkey
      simp [prepareClaudeRequest, this]
  · intro req key env net now e hsel
    rw [analyzeBloodTest.eq_def]
    by_cases h1 : truthy req.imageBase64 = false
    · simp [h1]
    · simp [h1, hsel]

/-- Witness for C5: Gemini falls back to the environment default `g`;
every missing-credential case returns its error with zero calls. -/
theorem C5_credential_resolution_witness :
    (prepareGeminiRequest "data:image/jpeg;base64,AAAA" none none (some "g")).map
        FetchConfig.url = Except.ok (geminiEndpoint ++ "?key=" ++ "g") ∧
    prepareGeminiRequest "data:image/jpeg;base64,AAAA" none none none =
      Except.error "No Gemini API key provided" ∧
    prepareOpenAIRequest "data:image/jpeg;base64,AAAA" none none =
      Except.error "No OpenAI API key provided" ∧
    prepareClaudeRequest "data:image/jpeg;base64,AAAA" none none =
      Except.error "No Claude API key provided" ∧
    (analyzeBloodTest ⟨some "data:image/jpeg;base64,AAAA", none, "openai"⟩ none none
      ⟨true, 200, "", Json.null⟩ 0).2 = [] :=
  ⟨C5_credential_resolution.1 "data:image/jpeg;base64,AAAA" none none "g" rfl (by decide),
   C5_credential_resolution.2.1 "data:image/jpeg;base64,AAAA" none none none rfl rfl,
   C5_credential_resolution.2.2.1 "data:image/jpeg;base64,AAAA" none none rfl,
   C5_credential_resolution.2.2.2.1 "data:image/jpeg;base64,AAAA" none none rfl,
   C5_credential_resolution.2.2.2.2 ⟨some "data:image/jpeg;base64,AAAA", none, "openai"⟩
     none none ⟨true, 200, "", Json.null⟩ 0 "No OpenAI API key provided" rfl⟩

/-- C6 counterexample: a request with an unrecognized provider `foo` but no
image returns the validation failure `No image provided`, not an
unsupported-provider failure, so the claim does not hold for every request
with an unrecognized provider. -/
theorem C6_unsupported_provider_counterexample :
    analyzeBloodTest ⟨none, none, "foo"⟩ none none ⟨true, 200, "", Json.null⟩ 0 =
      (AnalyzeOutcome.failure "No image provided", []) ∧
    "No image provided" ≠ "Unsupported provider: " ++ "foo" :=
  ⟨rfl, by decide⟩

/-- C6 as amended: a request with a present, non-empty image and an
unrecognized provider fails with `Unsupported provider: {provider}` and
zero network calls; and any request with an unrecognized provider issues
zero network calls regardless of the image. -/
theorem C6_unsupported_provider (req : AnalysisRequest)
    (key env : Option String) (net : HttpResponse) (now : Int)
    (h1 : req.provider ≠ "gemini") (h2 : req.provider ≠ "openai")
    (h3 : req.provider ≠ "claude") :
    (truthy req.imageBase64 = true →
      analyzeBloodTest req key env net now =
        (AnalyzeOutcome.failure ("Unsupported provider: " ++ req.provider), [])) ∧
    (analyzeBloodTest req key env net now).2 = [] := by
  have hsel : ∀ img ctx,
      selectBranch req.provider img ctx key env =
        Except.error ("Unsupported provider: " ++ req.provider) := by
    intro img ctx
    simp [selectBranch, h1, h2, h3]
  constructor
  · intro himg
    rw [analyzeBloodTest.eq_def]
    simp [himg, hsel]
  · rw [analyzeBloodTest.eq_def]
    by_cases himg : truthy req.imageBase64 = false
    · simp [himg]
    · simp [himg, hsel]

/-- Witness for C6 as amended at provider `foo` with an image present. -/
theorem C6_unsupported_provider_witness :
    analyzeBloodTest ⟨some "data:image/jpeg;base64,AAAA", none, "foo"⟩ none none
        ⟨true, 200, "", Json.null⟩ 0 =
      (AnalyzeOutcome.failure ("Unsupported provider: " ++ "foo"), []) ∧
    (analyzeBloodTest ⟨some "data:image/jpeg;base64,AAAA", none, "foo"⟩ none none
        ⟨true, 200, "", Json.null⟩ 0).2 = [] :=
  ⟨(C6_unsupported_provider ⟨some "data:image/jpeg;base64,AAAA", none, "foo"⟩ none none
      ⟨true, 200, "", Json.null⟩ 0 (by decide) (by decide) (by decide)).1 rfl,
   (C6_unsupported_provider ⟨some "data:image/jpeg;base64,AAAA", none, "foo"⟩ none none
      ⟨true, 200, "", Json.null⟩ 0 (by decide) (by decide) (by decide)).2⟩

/-- C7: a non-success HTTP response makes the adapter fail with an error
string carrying the numeric status and the response body text unmodified
(`API Error ({status}): {body}`), after exactly one network call; and no
invocation ever issues more than one network call (no retry). -/
theorem C7_http_error_no_retry :
    (∀ req key env net now cfg, truthy req.imageBase64 = true →
      selectBranch req.provider (req.imageBase64.getD "") req.contextText key env
        = Except.ok cfg →
      net.ok = false →
      analyzeBloodTest req key env net now =
        (AnalyzeOutcome.failure
          ("API Error (" ++ toString net.status ++ "): " ++ net.bodyText),
         [cfg])) ∧
    (∀ req key env net now, (analyzeBloodTest req key env net now).2.length ≤ 1) := by
  constructor
  · intro req key env net now cfg himg hsel hok
    rw [analyzeBloodTest.eq_def]
    simp [himg, hsel, hok]
  · intro req key env net now
    rw [analyzeBloodTest.eq_def]
    by_cases himg : truthy req.imageBase64 = false
    · simp [himg]
    · simp only [himg, if_false, reduceIte]
      cases hsel : selectBranch req.provider (req.imageBase64.getD "") req.contextText
          key env with
      | error e => simp
      | ok cfg =>
        by_cases hok : net.ok = false
        · simp [hok]
        · simp only [hok, if_false, reduceIte]
          cases hdec : decodeFor req.provider net.json with
          | error e => simp
          | ok t => simp

/-- Witness for C7: a 401 response with body `Unauthorized` on a Gemini
call. -/
theorem C7_http_error_no_retry_witness :
    analyzeBloodTest ⟨some "data:image/jpeg;base64,AAAA", none, "gemini"⟩ (some "k") none
        ⟨false, 401, "Unauthorized", Json.null⟩ 0 =
      (AnalyzeOutcome.failure
        ("API Error (" ++ toString (401 : Nat) ++ "): " ++ "Unauthorized"),
       [{ url := geminiEndpoint ++ "?key=" ++ "k"
          method := "POST"
          headers := [("Content-Type", "application/json")]
          body := Json.obj
            [ ("contents", Json.arr
                [ Json.obj
                    [ ("parts", Json.arr
                        [ Json.obj [("text", Json.str ANALYSIS_PROMPT)],
                          Json.obj
                            [ ("inline_data", Json.obj
                                [ ("mime_type", Json.str "image/jpeg"),
                                  ("data", Json.str "AAAA") ]) ] ]) ] ]),
              ("generationConfig", Json.obj
                [ ("temperature", Json.num (1/10)),
                  ("maxOutputTokens", Json.num 2048) ]) ] }]) ∧
    (analyzeBloodTest ⟨some "data:image/jpeg;base64,AAAA", none, "gemini"⟩ (some "k") none
        ⟨false, 401, "Unauthorized", Json.null⟩ 0).2.length ≤ 1 :=
  ⟨C7_http_error_no_retry.1 ⟨some "data:image/jpeg;base64,AAAA", none, "gemini"⟩
      (some "k") none ⟨false, 401, "Unauthorized", Json.null⟩ 0 _ rfl rfl rfl,
   C7_http_error_no_retry.2 ⟨some "data:image/jpeg;base64,AAAA", none, "gemini"⟩
      (some "k") none ⟨false, 401, "Unauthorized", Json.null⟩ 0⟩

/-- C8 counterexample: an OpenAI reply whose `choices[0].message` object
lacks the final `content` field does NOT produce a decode failure — the
adapter returns a success whose text is `undefined` (absent), because only
intermediate property accesses on `undefined` throw. -/
theorem C8_decode_counterexample :
    (analyzeBloodTest ⟨some "data:image/jpeg;base64,AAAA", none, "openai"⟩ (some "k") none
        ⟨true, 200, "",
          Json.obj [("choices", Json.arr [Json.obj [("message", Json.obj [])]])]⟩ 0).1
      = AnalyzeOutcome.success none "openai" 0 ∧
    (AnalyzeOutcome.success none "openai" 0).isFailure = false :=
  ⟨rfl, rfl⟩

theorem exceptOk_bind {ε α β : Type} (a : α) (f : α → Except ε β) :
    (Except.ok a : Except ε α) >>= f = f a := rfl

/-- C8 as amended: the success-path decode of each provider extracts the
assistant text from its documented nesting (gemini
`candidates[0].content.parts[0].text`, openai `choices[0].message.content`,
claude `content[0].text`); whenever ANY intermediate step of that nesting
yields `undefined` — the top field missing, the array empty, or a deeper
field missing — the next access throws a `TypeError` that the adapter
catches and returns as a tagged `success: false` decode failure (distinct
from the HTTP-status failure, which only arises when `ok` is false); and
when every intermediate step yields a value, the decode returns whatever
the final field access yields, so a reply where only the FINAL field is
missing produces a success with an absent text.  The conjuncts walk each
chain level by level. -/
theorem C8_decode_paths :
    ((∀ data, decodeFor "gemini" data = decodeGemini data) ∧
     (∀ t, decodeGemini
        (Json.obj [("candidates", Json.arr
          [Json.obj [("content", Json.obj
            [("parts", Json.arr [Json.obj [("text", Json.str t)]])])]])])
      = Except.ok (some (Json.str t))) ∧
     (∀ data, jsGetField (some data) "candidates" = Except.ok none →
       decodeGemini data = Except.error (typeErr "0")) ∧
     (∀ data a, jsGetField (some data) "candidates" = Except.ok a →
       jsGetIdx a 0 = Except.ok none →
       decodeGemini data = Except.error (typeErr "content")) ∧
     (∀ data a b, jsGetField (some data) "candidates" = Except.ok a →
       jsGetIdx a 0 = Except.ok b →
       jsGetField b "content" = Except.ok none →
       decodeGemini data = Except.error (typeErr "parts")) ∧
     (∀ data a b c, jsGetField (some data) "candidates" = Except.ok a →
       jsGetIdx a 0 = Except.ok b →
       jsGetField b "content" = Except.ok c →
       jsGetField c "parts" = Except.ok none →
       decodeGemini data = Except.error (typeErr "0")) ∧
     (∀ data a b c d, jsGetField (some data) "candidates" = Except.ok a →
       jsGetIdx a 0 = Except.ok b →
       jsGetField b "content" = Except.ok c →
       jsGetField c "parts" = Except.ok d →
       jsGetIdx d 0 = Except.ok none →
       decodeGemini data = Except.error (typeErr "text")) ∧
     (∀ data a b c d e t, jsGetField (some data) "candidates" = Except.ok a →
       jsGetIdx a 0 = Except.ok b →
       jsGetField b "content" = Except.ok c →
       jsGetField c "parts" = Except.ok d →
       jsGetIdx d 0 = Except.ok e →
       jsGetField e "text" = Except.ok t →
       decodeGemini data = Except.ok t)) ∧
    ((∀ data, decodeFor "openai" data = decodeOpenAI data) ∧
     (∀ t, decodeOpenAI
        (Json.obj [("choices", Json.arr
          [Json.obj [("message", Json.obj [("content", Json.str t)])]])])
      = Except.ok (some (Json.str t))) ∧
     (∀ data, jsGetField (some data) "choices" = Except.ok none →
       decodeOpenAI data = Except.error (typeErr "0")) ∧
     (∀ data a, jsGetField (some data) "choices" = Except.ok a →
       jsGetIdx a 0 = Except.ok none →
       decodeOpenAI data = Except.error (typeErr "message")) ∧
     (∀ data a b, jsGetField (some data) "choices" = Except.ok a →
       jsGetIdx a 0 = Except.ok b →
       jsGetField b "message" = Except.ok none →
       decodeOpenAI data = Except.error (typeErr "content")) ∧
     (∀ data a b c t, jsGetField (some data) "choices" = Except.ok a →
       jsGetIdx a 0 = Except.ok b →
       jsGetField b "message" = Except.ok c →
       jsGetField c "content" = Except.ok t →
       decodeOpenAI data = Except.ok t)) ∧
    ((∀ data, decodeFor "claude" data = decodeClaude data) ∧
     (∀ t, decodeClaude
        (Json.obj [("content", Json.arr [Json.obj [("text", Json.str t)]])])
      = Except.ok (some (Json.str t))) ∧
     (∀ data, jsGetField (some data) "content" = Except.ok none →
       decodeClaude data = Except.error (typeErr "0")) ∧
     (∀ data a, jsGetField (some data) "content" = Except.ok a →
       jsGetIdx a 0 = Except.ok none →
       decodeClaude data = Except.error (typeErr "text")) ∧
     (∀ data a b t, jsGetField (some data) "content" = Except.ok a →
       jsGetIdx a 0 = Except.ok b →
       jsGetField b "text" = Except.ok t →
       decodeClaude data = Except.ok t)) ∧
    ((∀ req key env net now cfg e, truthy req.imageBase64 = true →
      selectBranch req.provider (req.imageBase64.getD "") req.contextText key env
        = Except.ok cfg →
      net.ok = true →
      decodeFor req.provider net.json = Except.error e →
      analyzeBloodTest req key env net now = (AnalyzeOutcome.failure e, [cfg])) ∧
     (∀ req key env net now cfg, truthy req.imageBase64 = true →
      selectBranch req.provider (req.imageBase64.getD "") req.contextText key env
        = Except.ok cfg →
      net.ok = true →
      decodeFor req.provider net.json = Except.ok none →
      analyzeBloodTest req key env net now =
        (AnalyzeOutcome.success none req.provider now, [cfg]))) := by
  refine ⟨⟨fun data => rfl, fun t => rfl, ?_, ?_, ?_, ?_, ?_, ?_⟩,
    ⟨fun data => rfl, fun t => rfl, ?_, ?_, ?_, ?_⟩,
    ⟨fun data => rfl, fun t => rfl, ?_, ?_, ?_⟩, ?_, ?_⟩
  · intro data h1
    simp only [decodeGemini, h1, exceptOk_bind]
    rfl
  · intro data a h1 h2
    simp only [decodeGemini, h1, exceptOk_bind, h2]
    rfl
  · intro data a b h1 h2 h3
    simp only [decodeGemini, h1, exceptOk_bind, h2, h3]
    rfl
  · intro data a b c h1 h2 h3 h4
    simp only [decodeGemini, h1, exceptOk_bind, h2, h3, h4]
    rfl
  · intro data a b c d h1 h2 h3 h4 h5
    simp only [decodeGemini, h1, exceptOk_bind, h2, h3, h4, h5]
    rfl
  · intro data a b c d e t h1 h2 h3 h4 h5 h6
    simp only [decodeGemini, h1, exceptOk_bind, h2, h3, h4, h5, h6]
  · intro data h1
    simp only [decodeOpenAI, h1, exceptOk_bind]
    rfl
  · intro data a h1 h2
    simp only [decodeOpenAI, h1, exceptOk_bind, h2]
    rfl
  · intro data a b h1 h2 h3
    simp only [decodeOpenAI, h1, exceptOk_bind, h2, h3]
    rfl
  · intro data a b c t h1 h2 h3 h4
    simp only [decodeOpenAI, h1, exceptOk_bind, h2, h3, h4]
  · intro data h1
    simp only [decodeClaude, h1, exceptOk_bind]
    rfl
  · intro data a h1 h2
    simp only [decodeClaude, h1, exceptOk_bind, h2]
    rfl
  · intro data a b t h1 h2 h3
    simp only [decodeClaude, h1, exceptOk_bind, h2, h3]
  · intro req key env net now cfg e himg hsel hok hdec
    rw [analyzeBloodTest.eq_def]
    simp [himg, hsel, hok, hdec]
  · intro req key env net now cfg himg hsel hok hdec
    rw [analyzeBloodTest.eq_def]
    simp [himg, hsel, hok, hdec]

/-- Witness for C8 as amended: concrete decode runs for all three
documented shapes; intermediate fields missing at several depths (gemini
reply with no `candidates`, gemini reply with an empty `candidates` array,
openai reply whose first choice lacks `message`); a claude reply missing
only the final `text`; and the tagged failure surfacing through
`analyzeBloodTest`. -/
theorem C8_decode_paths_witness :
    decodeGemini
        (Json.obj [("candidates", Json.arr
          [Json.obj [("content", Json.obj
            [("parts", Json.arr [Json.obj [("text", Json.str "ok")]])])]])])
      = Except.ok (some (Json.str "ok")) ∧
    decodeOpenAI
        (Json.obj [("choices", Json.arr
          [Json.obj [("message", Json.obj [("content", Json.str "ok")])]])])
      = Except.ok (some (Json.str "ok")) ∧
    decodeClaude
        (Json.obj [("content", Json.arr [Json.obj [("text", Json.str "ok")]])])
      = Except.ok (some (Json.str "ok")) ∧
    decodeGemini (Json.obj []) = Except.error (typeErr "0") ∧
    decodeGemini (Json.obj [("candidates", Json.arr [])])
      = Except.error (typeErr "content") ∧
    decodeOpenAI (Json.obj [("choices", Json.arr [Json.obj []])])
      = Except.error (typeErr "content") ∧
    decodeClaude (Json.obj [("content", Json.arr [Json.obj []])])
      = Except.ok none ∧
    analyzeBloodTest ⟨some "data:image/jpeg;base64,AAAA", none, "claude"⟩ (some "k") none
        ⟨true, 200, "", Json.obj []⟩ 7 =
      (AnalyzeOutcome.failure (typeErr "0"),
       [{ url := "https://api.anthropic.com/v1/messages"
          method := "POST"
          headers :=
            [ ("Content-Type", "application/json"),
              ("x-api-key", "k"),
              ("anthropic-version", "2023-06-01") ]
          body := Json.obj
            [ ("model", Json.str "claude-3-opus-20240229"),
              ("max_tokens", Json.num 2048),
              ("temperature", Json.num (1/10)),
              ("messages", Json.arr
                [ Json.obj
                    [ ("role", Json.str "user"),
                      ("content", Json.arr
                        [ Json.obj
                            [ ("type", Json.str "text"),
                              ("text", Json.str ANALYSIS_PROMPT) ],
                          Json.obj
                            [ ("type", Json.str "image"),
                              ("source", Json.obj
                                [ ("type", Json.str "base64"),
                                  ("media_type", Json.str "image/jpeg"),
                                  ("data", Json.str "AAAA") ]) ] ]) ] ]) ] }]) :=
  ⟨C8_decode_paths.1.2.1 "ok",
   C8_decode_paths.2.1.2.1 "ok",
   C8_decode_paths.2.2.1.2.1 "ok",
   C8_decode_paths.1.2.2.1 (Json.obj []) rfl,
   C8_decode_paths.1.2.2.2.1 (Json.obj [("candidates", Json.arr [])])
     (some (Json.arr [])) rfl rfl,
   C8_decode_paths.2.1.2.2.2.2.1 (Json.obj [("choices", Json.arr [Json.obj []])])
     (some (Json.arr [Json.obj []])) (some (Json.obj [])) rfl rfl rfl,
   C8_decode_paths.2.2.1.2.2.2.2 (Json.obj [("content", Json.arr [Json.obj []])])
     (some (Json.arr [Json.obj []])) (some (Json.obj [])) none rfl rfl rfl,
   C8_decode_paths.2.2.2.1 ⟨some "data:image/jpeg;base64,AAAA", none, "claude"⟩
     (some "k") none ⟨true, 200, "", Json.obj []⟩ 7 _ (typeErr "0") rfl rfl rfl rfl⟩

/-- C9: exactly one provider flows end-to-end: a successful invocation
returns the provider named in the request, and its single network call is
exactly the one built by the branch of that provider; moreover each branch uses
only its own endpoint and credential placement (Gemini: key query
parameter on the Gemini URL; OpenAI: bearer header on the OpenAI URL;
Claude: `x-api-key` plus version header on the Anthropic URL). -/
theorem C9_single_provider_flow :
    (∀ req key env net now t p ts calls,
      analyzeBloodTest req key env net now = (AnalyzeOutcome.success t p ts, calls) →
      p = req.provider ∧
      (selectBranch req.provider (req.imageBase64.getD "") req.contextText key env).map
          (fun cfg => [cfg]) = Except.ok calls) ∧
    (∀ img ctx key env cfg,
      selectBranch "gemini" img ctx key env = Except.ok cfg →
      ∃ k, jsOrStr key env = some k ∧
        cfg.url = geminiEndpoint ++ "?key=" ++ k ∧
        cfg.headers = [("Content-Type", "application/json")]) ∧
    (∀ img ctx key env cfg,
      selectBranch "openai" img ctx key env = Except.ok cfg →
      ∃ k, key = some k ∧
        cfg.url = "https://api.openai.com/v1/chat/completions" ∧
        cfg.headers = [("Content-Type", "application/json"),
                       ("Authorization", "Bearer " ++ k)]) ∧
    (∀ img ctx key env cfg,
      selectBranch "claude" img ctx key env = Except.ok cfg →
      ∃ k, key = some k ∧
        cfg.url = "https://api.anthropic.com/v1/messages" ∧
        cfg.headers = [("Content-Type", "application/json"), ("x-api-key", k),
                       ("anthropic-version", "2023-06-01")]) := by
  refine ⟨?_, ?_, ?_, ?_⟩
  · intro req key env net now t p ts calls h
    rw [analyzeBloodTest.eq_def] at h
    by_cases himg : truthy req.imageBase64 = false
    · rw [if_pos himg] at h
      exact absurd h (by simp)
    · rw [if_neg himg] at h
      cases hsel : selectBranch req.provider (req.imageBase64.getD "") req.contextText
          key env with
      | error e => simp [hsel] at h
      | ok cfg =>
        simp only [hsel] at h
        by_cases hok : net.ok = false
        · rw [if_pos hok] at h
          exact absurd h (by simp)
        · rw [if_neg hok] at h
          cases hdec : decodeFor req.provider net.json with
          | error e => simp [hdec] at h
          | ok t2 =>
            simp only [hdec] at h
            simp only [Prod.mk.injEq, AnalyzeOutcome.success.injEq] at h
            refine ⟨h.1.2.1.symm, ?_⟩
            rw [← h.2]
            rfl
  · intro img ctx key env cfg hsel
    simp only [selectBranch, reduceIte] at hsel
    cases hjk : jsOrStr key env with
    | none => simp [prepareGeminiRequest, hjk] at hsel
    | some k =>
      simp only [prepareGeminiRequest, hjk] at hsel
      by_cases hk : k = ""
      · rw [if_pos hk] at hsel
        exact absurd hsel (by simp)
      · rw [if_neg hk] at hsel
        injection hsel with h0
        exact ⟨k, rfl, by rw [← h0], by rw [← h0]⟩
  · intro img ctx key env cfg hsel
    simp only [selectBranch, reduceIte] at hsel
    cases key with
    | none => simp [prepareOpenAIRequest] at hsel
    | some k =>
      simp only [prepareOpenAIRequest] at hsel
      by_cases hk : k = ""
      · rw [if_pos hk] at hsel
        exact absurd hsel (by simp)
      · rw [if_neg hk] at hsel
        injection hsel with h0
        exact ⟨k, rfl, by rw [← h0], by rw [← h0]⟩
  · intro img ctx key env cfg hsel
    simp only [selectBranch, reduceIte] at hsel
    cases key with
    | none => simp [prepareClaudeRequest] at hsel
    | some k =>
      simp only [prepareClaudeRequest] at hsel
      by_cases hk : k = ""
      · rw [if_pos hk] at hsel
        exact absurd hsel (by simp)
      · rw [if_neg hk] at hsel
        injection hsel with h0
        exact ⟨k, rfl, by rw [← h0], by rw [← h0]⟩

/-- Witness for C9: a successful Gemini invocation returns provider
`gemini` and its one call is the Gemini-branch request. -/
theorem C9_single_provider_flow_witness :
    "gemini" = (AnalysisRequest.mk (some "data:image/jpeg;base64,AAAA") none "gemini").provider ∧
    (selectBranch "gemini" ((some "data:image/jpeg;base64,AAAA" : Option String).getD "")
        none (some "k") none).map (fun cfg => [cfg]) =
      Except.ok ((analyzeBloodTest ⟨some "data:image/jpeg;base64,AAAA", none, "gemini"⟩
        (some "k") none
        ⟨true, 200, "",
          Json.obj [("candidates", Json.arr
            [Json.obj [("content", Json.obj
              [("parts", Json.arr [Json.obj [("text", Json.str "ok")]])])]])]⟩ 0).2) :=
  C9_single_provider_flow.1 ⟨some "data:image/jpeg;base64,AAAA", none, "gemini"⟩
    (some "k") none
    ⟨true, 200, "",
      Json.obj [("candidates", Json.arr
        [Json.obj [("content", Json.obj
          [("parts", Json.arr [Json.obj [("text", Json.str "ok")]])])]])]⟩ 0
    (some (Json.str "ok")) "gemini" 0 _ rfl

/-- C10 counterexample: the comma-free image `data:image/png;x` passes
validation and yields an ABSENT `data`, but its Claude `media_type` is the
DEFINED string `image/png` (parsed from the text between `:` and `;`), not
an undefined value as the claim asserts for every comma-free image. -/
theorem C10_no_prefix_counterexample :
    truthy (some "data:image/png;x") = true ∧
    (jsSplit "data:image/png;x" ',').get? 1 = none ∧
    (jsSplit ((jsSplit "data:image/png;x" ';').getD 0 "") ':').get? 1
      = some "image/png" ∧
    (prepareClaudeRequest "data:image/png;x" none (some "k")).map imageSourceOf =
      Except.ok (Except.ok (some (Json.obj
        [("type", Json.str "base64"), ("media_type", Json.str "image/png")]))) :=
  ⟨rfl, rfl, rfl, rfl⟩

/-- C10 as amended: a non-empty image without a comma passes validation
(only emptiness is checked); the Gemini builder then serializes an
`inline_data` object with no `data` entry, and the Claude builder an image
source with no `data` entry and with `media_type` given by the
`split(';')[0].split(':')[1]` parse — which is absent whenever the image
also contains no colon. -/
theorem C10_no_prefix_image (img : String) (hne : img ≠ "") (hc : ',' ∉ img.data) :
    truthy (some img) = true ∧
    (jsSplit img ',').get? 1 = none ∧
    (∀ ctx key env cfg, prepareGeminiRequest img ctx key env = Except.ok cfg →
      inlineDataOf cfg =
        Except.ok (some (Json.obj [("mime_type", Json.str "image/jpeg")]))) ∧
    (∀ ctx key cfg, prepareClaudeRequest img ctx key = Except.ok cfg →
      imageSourceOf cfg =
        Except.ok (some (Json.obj
          (("type", Json.str "base64") ::
            optStrField "media_type"
              ((jsSplit ((jsSplit img ';').getD 0 "") ':').get? 1))))) ∧
    (':' ∉ img.data →
      (jsSplit ((jsSplit img ';').getD 0 "") ':').get? 1 = none) := by
  have hsplit : (jsSplit img ',').get? 1 = none := jsSplit_no_sep img ',' hc
  have hsplit2 : (jsSplit img ',')[1]? = none := by simpa using hsplit
  refine ⟨by simp [truthy, hne], hsplit, ?_, ?_, ?_⟩
  · intro ctx key env cfg hp
    cases hjk : jsOrStr key env with
    | none => simp [prepareGeminiRequest, hjk] at hp
    | some k =>
      simp only [prepareGeminiRequest, hjk] at hp
      by_cases hk : k = ""
      · rw [if_pos hk] at hp
        exact absurd hp (by simp)
      · rw [if_neg hk] at hp
        injection hp with h0
        rw [← h0]
        simp only [inlineDataOf, jsGetField, jsGetIdx, hsplit, optStrField,
          List.append_nil, List.cons_append, List.nil_append]
        rfl
  · intro ctx key cfg hp
    cases key with
    | none => simp [prepareClaudeRequest] at hp
    | some k =>
      simp only [prepareClaudeRequest] at hp
      by_cases hk : k = ""
      · rw [if_pos hk] at hp
        exact absurd hp (by simp)
      · rw [if_neg hk] at hp
        injection hp with h0
        rw [← h0]
        simp only [imageSourceOf, jsGetField, jsGetIdx, hsplit, optStrField,
          List.append_nil, List.cons_append, List.nil_append]
        rfl
  · intro hcolon
    refine jsSplit_no_sep _ ':' ?_
    intro hmem
    exact hcolon (jsSplit_head_subset img ';' ':' hmem)

/-- Witness for C10 as amended at the bare payload `AAAA`. -/
theorem C10_no_prefix_image_witness :
    truthy (some "AAAA") = true ∧
    (jsSplit "AAAA" ',').get? 1 = none ∧
    (jsSplit ((jsSplit "AAAA" ';').getD 0 "") ':').get? 1 = none :=
  ⟨(C10_no_prefix_image "AAAA" (by decide) (by decide)).1,
   (C10_no_prefix_image "AAAA" (by decide) (by decide)).2.1,
   (C10_no_prefix_image "AAAA" (by decide) (by decide)).2.2.2.2 (by decide)⟩
